import Mathlib

/-!
# Flash-Flood monitoring UI layer: shallow embedding and verification

This file embeds the claim-relevant parts of the flood-monitoring
presentation layer (web dashboard + React Native mobile app) in Lean 4 and
proves properties of the embedded definitions.

Modelling conventions:
* JavaScript numbers are modelled by `ℚ` (all values handled by the claims
  are exact decimals; no floating-point rounding is relevant to them).
* Instants (`Date.now()`, epoch milliseconds) are modelled by `ℤ`;
  `Date.toISOString()` rendering is irrelevant to every claim and timestamps
  are therefore carried as opaque values (`String` or `ℤ`) where they occur.
* A JS value that may be `undefined`/`null` is modelled by `Option`.
* JS truthiness on the values actually reaching the relevant expressions:
  a number is truthy iff it is nonzero, a string is truthy iff it is
  nonempty, `undefined`/`null` are falsy.
* Code that can throw is modelled with `Except`; a `try/catch` becomes a
  `match` on the `Except` value of the guarded body.
-/

namespace FloodUI

/-- The `FloodData` interface of `frontend/src/services/api.ts`: one sensor
reading exchanged with the backend.  `risk_level` is the model-determined
(backend-assigned) risk classification and is optional, as are the
geocoordinates. -/
structure FloodData where
  timestamp : String
  floodProbability : ℚ
  risk_level : Option String
  rainfall : ℚ
  waterLevel : ℚ
  temperature : ℚ
  humidity : ℚ
  windSpeed : ℚ
  soilMoisture : ℚ
  drainageCapacity : ℚ
  riverDischarge : ℚ
  deforestation : ℚ
  climateChange : ℚ
  cloudCover : ℚ
  urbanization : ℚ
  latitude : Option ℚ
  longitude : Option ℚ
deriving DecidableEq, Repr

/-- Helper to build a concrete `FloodData` record with the two fields the
claims inspect (`floodProbability`, `risk_level`); all other sensor fields
are zero. -/
def mkReading (p : ℚ) (rl : Option String) : FloodData :=
  { timestamp := "", floodProbability := p, risk_level := rl,
    rainfall := 0, waterLevel := 0, temperature := 0, humidity := 0,
    windSpeed := 0, soilMoisture := 0, drainageCapacity := 0,
    riverDischarge := 0, deforestation := 0, climateChange := 0,
    cloudCover := 0, urbanization := 0, latitude := none, longitude := none }

namespace API

/-- A parsed JSON response body, as far as the client code inspects it:
`Array.isArray` distinguishes an array of readings from every other JSON
shape, which the client treats uniformly. -/
inductive Json where
  | arr (readings : List FloodData)
  | obj
  | num (q : ℚ)
  | str (s : String)
  | boolean (b : Bool)
  | null
deriving DecidableEq, Repr

/-- Method `FloodMonitoringAPI.getRecentReadings` (api.ts lines 107-115): throws
when the response is not ok; otherwise returns the parsed body if it is an
array and `[]` for any non-array body.  The `limit` argument only shapes the
request URL. -/
def getRecentReadings (limit : ℕ) (ok : Bool) (body : Json) :
    Except String (List FloodData) :=
  if ¬ ok then
    Except.error "Failed to fetch recent readings"
  else
    Except.ok (match body with
      | Json.arr readings => readings
      | _ => [])

/-- The guarded body of the `ws.onmessage` handler (api.ts lines 153-160):
parse the raw message, then invoke every registered listener with the parsed
reading.  The result is the list of (listener, argument) invocations, in
registration order.  `parse` models `JSON.parse` specialised to the expected
shape. -/
def onmessageBody {L : Type} (parse : String → Except String FloodData)
    (wsListeners : List L) (raw : String) :
    Except String (List (L × FloodData)) := do
  let data ← parse raw
  pure (wsListeners.map (fun listener => (listener, data)))

/-- The full `ws.onmessage` handler: the body runs inside `try/catch`, and
the catch block only logs, so a parse failure yields no invocations and no
propagated exception. -/
def onmessage {L : Type} (parse : String → Except String FloodData)
    (wsListeners : List L) (raw : String) :
    Except String (List (L × FloodData)) :=
  match onmessageBody parse wsListeners raw with
  | Except.ok calls => Except.ok calls
  | Except.error _ => Except.ok []

/-- Events observable by the WebSocket client created in
`connectWebSocket` (api.ts lines 145-176). -/
inductive WSEvent where
  | opened
  | message (raw : String)
  | closed
  | errored
deriving DecidableEq, Repr

/-- Client-side reconnect bookkeeping: the list of delays (in ms) of the
reconnect timers scheduled so far, in order.  The source class keeps no
retry counter and no backoff state, which this state type reflects. -/
structure WSState where
  scheduled : List ℕ
deriving DecidableEq, Repr

/-- The `onclose` handler (api.ts lines 162-168): unconditionally schedule
`connectWebSocket` again after 5000 ms. -/
def onclose (s : WSState) : WSState :=
  { s with scheduled := s.scheduled ++ [5000] }

/-- One event dispatch: only `onclose` touches the reconnect schedule
(`onopen`/`onerror` only log; `onmessage` is modelled separately). -/
def wsStep (s : WSState) (e : WSEvent) : WSState :=
  match e with
  | WSEvent.closed => onclose s
  | _ => s

/-- Process a whole sequence of WebSocket events. -/
def wsRun (s : WSState) (es : List WSEvent) : WSState :=
  es.foldl wsStep s

/-- Recogniser for close events. -/
def isClosed : WSEvent → Bool
  | WSEvent.closed => true
  | _ => false

end API

namespace StatusCards

/-- The flood-risk colour class of `StatusCards.tsx` (lines 64-84): the
nested conditional on `currentData.risk_level`.  `!currentData.risk_level`
is truthy for a missing label and for the empty string. -/
def floodRiskColorClass (currentData : FloodData) : String :=
  match currentData.risk_level with
  | none => "text-gray-600"
  | some rl =>
    if rl = "" then "text-gray-600"
    else if rl = "LOW" then "text-green-600"
    else if rl = "MILD" then "text-yellow-600"
    else if rl = "HIGH" then "text-orange-600"
    else "text-red-600"

end StatusCards

namespace AlertsPanel

/-- The `Alert.type` union of `AlertsPanel.tsx`. -/
inductive AlertType where
  | critical
  | warning
  | info
  | success
deriving DecidableEq, Repr

/-- The client-side `Alert` record of `AlertsPanel.tsx`.  Timestamps are
epoch milliseconds (the source renders them with `toISOString`). -/
structure Alert where
  id : String
  type : AlertType
  title : String
  message : String
  timestamp : ℤ
  acknowledged : Bool
deriving DecidableEq, Repr

/-- Model of `Number.prototype.toFixed(1)` for the nonnegative exact decimals used
here: round to one decimal place and render as `w.d`. -/
def toFixed1 (q : ℚ) : String :=
  let t : ℤ := ⌊q * 10 + 1 / 2⌋
  toString (t / 10) ++ "." ++ toString (t % 10)

/-- Function `generateSampleAlerts` (AlertsPanel.tsx lines 161-199): pushes a
critical alert when the model risk level is `SEVERE`, a warning alert when
it is `HIGH`, and otherwise (when no alert was pushed) a single
acknowledged info alert timestamped five minutes earlier.  `now` is the
epoch-ms clock reading taken at entry. -/
def generateSampleAlerts (floodProbability : ℚ) (riskLevel : Option String)
    (now : ℤ) : List Alert :=
  let alerts : List Alert :=
    if riskLevel = some "SEVERE" then
      [{ id := "critical-" ++ toString now,
         type := AlertType.critical,
         title := "SEVERE Flood Risk (Model Determined)",
         message := "Model classified risk as SEVERE (probability: " ++
           toFixed1 (floodProbability * 100) ++ "%). Immediate action required.",
         timestamp := now,
         acknowledged := false }]
    else if riskLevel = some "HIGH" then
      [{ id := "warning-" ++ toString now,
         type := AlertType.warning,
         title := "HIGH Flood Risk (Model Determined)",
         message := "Model classified risk as HIGH (probability: " ++
           toFixed1 (floodProbability * 100) ++ "%). Monitor conditions closely.",
         timestamp := now,
         acknowledged := false }]
    else []
  if alerts = [] then
    alerts ++
      [{ id := "info-1",
         type := AlertType.info,
         title := "System Status",
         message := "All sensors are operating normally. Last data sync completed successfully.",
         timestamp := now - 300000,
         acknowledged := true }]
  else alerts

end AlertsPanel

namespace FloodMap

/-- Function `getMarkerColor` of the `FloodMap` component (part_006 lines 794-799):
the current-location marker colour, computed from the flood probability by
local thresholds. -/
def getMarkerColor (risk : ℚ) : String :=
  if risk < 3 / 10 then "#22c55e"
  else if risk < 1 / 2 then "#eab308"
  else if risk < 7 / 10 then "#f97316"
  else "#ef4444"

end FloodMap

namespace Dashboard

/-- Model of `Array.prototype.slice(-n)`: the last `min n xs.length` elements. -/
def sliceLast {α : Type} (n : ℕ) (xs : List α) : List α :=
  xs.drop (xs.length - n)

/-- The `onRealtimeData` callback registered by `FloodMonitoringDashboard`
(part_004 line 193): `setData(prev => [...prev.slice(-49), newData])`. -/
def onRealtimeData (prev : List FloodData) (newData : FloodData) :
    List FloodData :=
  sliceLast 49 prev ++ [newData]

end Dashboard

namespace AlertPortal

/-- The registration form state of `AlertPortal` (part_002). -/
structure RegistrationData where
  phone_number : String
  name : String
  area : String
  latitude : ℚ
  longitude : ℚ
deriving DecidableEq, Repr

/-- The test of the phone regex `^\+[1-9]\d\x7b1,14\x7d$`: a leading `+`,
a digit `1`-`9`, then one to fourteen further digits. -/
def phoneRegexTest (s : String) : Bool :=
  match s.data with
  | '+' :: c :: ds =>
    decide ('1' ≤ c) && decide (c ≤ '9') &&
      ds.all (fun d => d.isDigit) &&
      decide (1 ≤ ds.length) && decide (ds.length ≤ 14)
  | _ => false

/-- Model of `String.prototype.trim`: drop whitespace from both ends.
Implemented over the character list so that it evaluates by kernel
reduction. -/
def trimString (s : String) : String :=
  ⟨((s.data.dropWhile Char.isWhitespace).reverse.dropWhile
      Char.isWhitespace).reverse⟩

/-- Outcome of a form submission: either an error message is set and the
handler returns early (no request, no state change), or the registration
POST is issued with the given body. -/
inductive RegOutcome where
  | reject (msg : String)
  | submit (body : RegistrationData)
deriving DecidableEq, Repr

/-- Handler `handleRegistration` (part_002 lines 108-137) up to the point the POST
is issued: validate the phone number, the trimmed name, and the area, in
that order; on the first failure set the error message and return,
otherwise send `JSON.stringify(registrationData)` to
`/api/users/register`. -/
def handleRegistration (registrationData : RegistrationData) : RegOutcome :=
  if ¬ phoneRegexTest registrationData.phone_number then
    RegOutcome.reject "Please enter a valid phone number (e.g., +919876543210)"
  else if trimString registrationData.name = "" then
    RegOutcome.reject "Please enter your name"
  else if registrationData.area = "" then
    RegOutcome.reject "Please select your area"
  else
    RegOutcome.submit registrationData

end AlertPortal

namespace MobileApp

/-- A raw backend reading as consumed by the mobile app
(`mobile-app/App.tsx`, `getFloodStatus`): the sensor fields guarded with
`|| default` may be absent. -/
structure BackendReading where
  timestamp : String
  floodProbability : ℚ
  rainfall : Option ℚ
  waterLevel : Option ℚ
  temperature : Option ℚ
  humidity : Option ℚ
deriving DecidableEq, Repr

/-- The mobile `FloodData` interface (App.tsx lines 13-22). -/
structure MobileFloodData where
  riskLevel : String
  riskPercentage : ℚ
  rainfall : ℚ
  waterLevel : ℚ
  temperature : ℚ
  humidity : ℚ
  lastUpdated : String
  recommendations : List String
deriving DecidableEq, Repr

/-- JS `v || d` for an optional number `v`: `undefined` and `0` are falsy
and give the default. -/
def orDefault (v : Option ℚ) (d : ℚ) : ℚ :=
  match v with
  | none => d
  | some x => if x = 0 then d else x

/-- The local risk reclassification in `getFloodStatus` (App.tsx lines
182-190): start at `low`, then raise to `mild`/`high`/`severe` by
probability thresholds 0.4 / 0.6 / 0.8. -/
def computeRiskLevel (floodProbability : ℚ) : String :=
  if floodProbability ≥ 8 / 10 then "severe"
  else if floodProbability ≥ 6 / 10 then "high"
  else if floodProbability ≥ 4 / 10 then "mild"
  else "low"

/-- Model of `parseFloat((x * 100).toFixed(1))` for the nonnegative exact decimals
used here: the percentage rounded to one decimal place. -/
def roundTo1 (q : ℚ) : ℚ :=
  ((⌊q * 10 + 1 / 2⌋ : ℤ) : ℚ) / 10

/-- The hard-coded recommendations used by every fallback path of the
mobile app. -/
def defaultRecommendations : List String :=
  [ "Monitor weather conditions regularly",
    "Check drainage systems in your area",
    "Stay informed about weather updates",
    "Keep emergency contacts handy" ]

/-- The static placeholder returned by `getFloodStatus` when no backend
data is available (App.tsx lines 227-241 and 246-260); `now` is the
`new Date().toISOString()` string. -/
def fallbackFloodData (now : String) : MobileFloodData :=
  { riskLevel := "low",
    riskPercentage := 153 / 10,
    rainfall := 5 / 2,
    waterLevel := 9 / 5,
    temperature := 26,
    humidity := 68,
    lastUpdated := now,
    recommendations := defaultRecommendations }

/-- How the `fetch` of `/api/recent-readings?limit=1` resolved: the fetch
itself threw, or a response arrived with the given `ok` flag and parsed
body. -/
inductive FetchOutcome where
  | fetchError
  | response (ok : Bool) (readings : List BackendReading)
deriving DecidableEq, Repr

/-- Method `apiService.getFloodStatus` (App.tsx lines 167-262), with its external
interactions as parameters: the fetch outcome, the recommendations obtained
from `getRecommendations`, and the current clock string.  A thrown error
(fetch failure or `!response.ok`) lands in the catch block; an empty
readings list takes the `else` branch: all three return the static
placeholder.  Otherwise the first reading is converted, with the risk level
recomputed locally from the flood probability. -/
def getFloodStatus (outcome : FetchOutcome) (recommendations : List String)
    (now : String) : MobileFloodData :=
  match outcome with
  | FetchOutcome.fetchError => fallbackFloodData now
  | FetchOutcome.response false _ => fallbackFloodData now
  | FetchOutcome.response true [] => fallbackFloodData now
  | FetchOutcome.response true (latest :: _) =>
    { riskLevel := computeRiskLevel latest.floodProbability,
      riskPercentage := roundTo1 (latest.floodProbability * 100),
      rainfall := orDefault latest.rainfall 0,
      waterLevel := orDefault latest.waterLevel 0,
      temperature := orDefault latest.temperature 26,
      humidity := orDefault latest.humidity 68,
      lastUpdated := latest.timestamp,
      recommendations := recommendations }

/-- The adaptive polling interval lookup of `HomeScreen`'s
`checkAndUpdateInterval` (App.tsx lines 362-381), in minutes. -/
def intervalMinutes (riskLevel : String) : ℕ :=
  if riskLevel = "severe" then 1
  else if riskLevel = "high" then 2
  else if riskLevel = "mild" then 5
  else 10

/-- Constant `HIGH_RISK_THRESHOLD` of `checkRiskAndNotify`. -/
def HIGH_RISK_THRESHOLD : ℚ := 4 / 10

/-- Constant `SEVERE_RISK_THRESHOLD` of `checkRiskAndNotify`. -/
def SEVERE_RISK_THRESHOLD : ℚ := 7 / 10

/-- The `shouldAlert` condition of `checkRiskAndNotify` (App.tsx lines
114-115): high risk, or a truthy (nonzero) previous risk exceeded by at
least 0.05. -/
def shouldAlert (currentRisk previousRisk : ℚ) : Bool :=
  decide (currentRisk ≥ HIGH_RISK_THRESHOLD) ||
    (decide (previousRisk ≠ 0) && decide (currentRisk - previousRisk ≥ 5 / 100))

/-- The `cooldownTime` of `checkRiskAndNotify` (App.tsx lines 120-122), in
milliseconds. -/
def cooldownTime (currentRisk : ℚ) : ℕ :=
  if currentRisk ≥ SEVERE_RISK_THRESHOLD then 30 * 60 * 1000
  else 60 * 60 * 1000

/-- The `shouldShowAlert` condition (App.tsx lines 124-125): no stored
alert time, or the cooldown has elapsed.  `lastAlertTime` is the stored
epoch-ms value (`none` when `AsyncStorage` has no entry), `now` is
`Date.now()`. -/
def shouldShowAlert (currentRisk : ℚ) (lastAlertTime : Option ℤ) (now : ℤ) :
    Bool :=
  match lastAlertTime with
  | none => true
  | some t => decide (now - t > (cooldownTime currentRisk : ℤ))

/-- Whether `checkRiskAndNotify` raises the local flood alert on this call:
`shouldAlert` gates entry to the block, `shouldShowAlert` gates the alert
itself. -/
def alertRaised (currentRisk previousRisk : ℚ) (lastAlertTime : Option ℤ)
    (now : ℤ) : Bool :=
  shouldAlert currentRisk previousRisk &&
    shouldShowAlert currentRisk lastAlertTime now

end MobileApp

/-- Severity rank of the risk labels the mobile polling policy switches on:
`severe` is the highest risk, then `high`, then `mild`, then everything
else.  This auxiliary fixes the meaning of "strictly higher-risk label" in
the monotonicity statement about `intervalMinutes`. -/
def riskRank (riskLevel : String) : ℕ :=
  if riskLevel = "severe" then 3
  else if riskLevel = "high" then 2
  else if riskLevel = "mild" then 1
  else 0

/-! ## Theorems -/

/-- Helper for the reconnect claim: processing an event sequence appends
one 5000 ms reconnect timer per close event, and nothing else. -/
theorem wsRun_scheduled (es : List API.WSEvent) (s : API.WSState) :
    (API.wsRun s es).scheduled =
      s.scheduled ++ List.replicate (es.countP API.isClosed) 5000 := by
  induction es generalizing s with
  | nil => simp [API.wsRun]
  | cons e es ih =>
    have hstep : API.wsRun s (e :: es) = API.wsRun (API.wsStep s e) es := rfl
    rw [hstep, ih]
    cases e <;>
      simp [API.wsStep, API.onclose, API.isClosed, List.countP_cons,
        List.replicate_succ, List.append_assoc]

/-- C5: whenever the WebSocket connection closes, a reconnect attempt is
scheduled after the same fixed 5-second (5000 ms) delay, regardless of how
many closes occurred before: starting from a fresh client, after any event
sequence the scheduled reconnect delays are exactly one 5000 ms timer per
close event — the delay never grows and no close fails to schedule a
reconnect. -/
theorem C5_reconnect_fixed_delay (es : List API.WSEvent) :
    (API.wsRun ⟨[]⟩ es).scheduled =
      List.replicate (es.countP API.isClosed) 5000 := by
  simpa using wsRun_scheduled es ⟨[]⟩

/-- C10: for every ok response `getRecentReadings` returns an array — the
body itself if it parses as an array and `[]` for any non-array body — and
it throws exactly when the response is not ok. -/
theorem C10_getRecentReadings_array (limit : ℕ) (body : API.Json) :
    (∃ ys, API.getRecentReadings limit true body = Except.ok ys) ∧
    (∀ xs, body = API.Json.arr xs →
      API.getRecentReadings limit true body = Except.ok xs) ∧
    ((∀ xs, body ≠ API.Json.arr xs) →
      API.getRecentReadings limit true body = Except.ok []) ∧
    API.getRecentReadings limit false body =
      Except.error "Failed to fetch recent readings" := by
  refine ⟨?_, ?_, ?_, rfl⟩
  · cases body <;> exact ⟨_, rfl⟩
  · rintro xs rfl
    rfl
  · intro h
    cases body with
    | arr xs => exact absurd rfl (h xs)
    | _ => rfl

/-- Witness for C10 at a concrete ok response whose body is a one-reading
array. -/
theorem C10_witness :
    API.Json.arr [mkReading 0 none] = API.Json.arr [mkReading 0 none] ∧
    API.getRecentReadings 50 true (API.Json.arr [mkReading 0 none]) =
      Except.ok [mkReading 0 none] :=
  ⟨rfl, (C10_getRecentReadings_array 50 (API.Json.arr [mkReading 0 none])).2.1
    [mkReading 0 none] rfl⟩

/-- C8: for every WebSocket message, if the body parses then every
registered listener is invoked exactly once with the parsed reading (the
invocation list is precisely the listener list paired with the reading);
if parsing fails no listener is invoked; and in both cases the handler
returns normally — no exception propagates. -/
theorem C8_onmessage_listeners {L : Type}
    (parse : String → Except String FloodData) (wsListeners : List L)
    (raw : String) :
    (∃ calls, API.onmessage parse wsListeners raw = Except.ok calls) ∧
    (∀ d, parse raw = Except.ok d →
      API.onmessage parse wsListeners raw =
        Except.ok (wsListeners.map (fun listener => (listener, d)))) ∧
    (∀ e, parse raw = Except.error e →
      API.onmessage parse wsListeners raw = Except.ok []) := by
  unfold API.onmessage API.onmessageBody
  cases h : parse raw <;> simp [h, Except.bind]

/-- Witness for C8: two registered listeners and a message that parses to a
concrete reading are each invoked exactly once. -/
theorem C8_witness :
    (fun _ : String => Except.ok (mkReading 0 none) :
      String → Except String FloodData) "m" = Except.ok (mkReading 0 none) ∧
    API.onmessage (fun _ : String => Except.ok (mkReading 0 none)) [0, 1] "m" =
      Except.ok [(0, mkReading 0 none), (1, mkReading 0 none)] :=
  ⟨rfl,
    (C8_onmessage_listeners (fun _ => Except.ok (mkReading 0 none))
      [0, 1] "m").2.1 (mkReading 0 none) rfl⟩

/-- C6: the mobile `getFloodStatus` never throws, and on every failing
execution — the fetch threw, the response was not ok, or the readings list
was empty — it returns the fixed static placeholder: risk level `low`,
risk percentage 15.3, rainfall 2.5, water level 1.8, temperature 26,
humidity 68, and the four default recommendations.  Totality of the
embedded function (it returns `MobileFloodData`, not `Except`) reflects
that every throw inside the `try` lands in the catch block. -/
theorem C6_getFloodStatus_fallback (recommendations : List String)
    (now : String) (readings : List MobileApp.BackendReading) :
    MobileApp.getFloodStatus MobileApp.FetchOutcome.fetchError
        recommendations now = MobileApp.fallbackFloodData now ∧
    MobileApp.getFloodStatus (MobileApp.FetchOutcome.response false readings)
        recommendations now = MobileApp.fallbackFloodData now ∧
    MobileApp.getFloodStatus (MobileApp.FetchOutcome.response true [])
        recommendations now = MobileApp.fallbackFloodData now ∧
    (MobileApp.fallbackFloodData now).riskLevel = "low" ∧
    (MobileApp.fallbackFloodData now).riskPercentage = 153 / 10 ∧
    (MobileApp.fallbackFloodData now).rainfall = 5 / 2 ∧
    (MobileApp.fallbackFloodData now).waterLevel = 9 / 5 ∧
    (MobileApp.fallbackFloodData now).temperature = 26 ∧
    (MobileApp.fallbackFloodData now).humidity = 68 ∧
    (MobileApp.fallbackFloodData now).recommendations =
      [ "Monitor weather conditions regularly",
        "Check drainage systems in your area",
        "Stay informed about weather updates",
        "Keep emergency contacts handy" ] :=
  ⟨rfl, rfl, rfl, rfl, rfl, rfl, rfl, rfl, rfl, rfl⟩

/-- C2: the dashboard readings buffer is a bounded rolling window — after
each delivered reading it holds at most 50 readings, the newly delivered
reading is last, below the bound nothing is evicted, and at the bound the
oldest reading is discarded. -/
theorem C2_rolling_window (prev : List FloodData) (newData : FloodData) :
    (Dashboard.onRealtimeData prev newData).length ≤ 50 ∧
    (Dashboard.onRealtimeData prev newData).getLast? = some newData ∧
    (prev.length < 50 →
      Dashboard.onRealtimeData prev newData = prev ++ [newData]) ∧
    (prev.length = 50 →
      Dashboard.onRealtimeData prev newData = prev.tail ++ [newData]) := by
  unfold Dashboard.onRealtimeData Dashboard.sliceLast
  refine ⟨?_, ?_, ?_, ?_⟩
  · simp only [List.length_append, List.length_drop, List.length_cons,
      List.length_nil]
    omega
  · rw [List.getLast?_append_cons]
    rfl
  · intro h
    have h0 : prev.length - 49 = 0 := by omega
    rw [h0, List.drop_zero]
  · intro h
    have h1 : prev.length - 49 = 1 := by omega
    rw [h1, List.drop_one]

/-- Witness for C2 at a full 50-reading buffer: the oldest reading is
discarded and the new reading appended. -/
theorem C2_witness :
    (List.replicate 50 (mkReading 0 none)).length = 50 ∧
    Dashboard.onRealtimeData (List.replicate 50 (mkReading 0 none))
        (mkReading 1 none) =
      (List.replicate 50 (mkReading 0 none)).tail ++ [mkReading 1 none] :=
  ⟨by simp,
    (C2_rolling_window (List.replicate 50 (mkReading 0 none))
      (mkReading 1 none)).2.2.2 (by simp)⟩

/-- C4: the mobile polling interval is the fixed lookup table
severe 1 min, high 2 min, mild 5 min, anything else 10 min, and a
strictly higher-risk label never yields a longer polling interval. -/
theorem C4_adaptive_polling :
    (MobileApp.intervalMinutes "severe" = 1 ∧
     MobileApp.intervalMinutes "high" = 2 ∧
     MobileApp.intervalMinutes "mild" = 5) ∧
    (∀ riskLevel : String, riskLevel ≠ "severe" → riskLevel ≠ "high" →
      riskLevel ≠ "mild" → MobileApp.intervalMinutes riskLevel = 10) ∧
    (∀ l₁ l₂ : String, riskRank l₂ < riskRank l₁ →
      MobileApp.intervalMinutes l₁ ≤ MobileApp.intervalMinutes l₂) := by
  refine ⟨⟨rfl, rfl, rfl⟩, ?_, ?_⟩
  · intro l h1 h2 h3
    simp [MobileApp.intervalMinutes, h1, h2, h3]
  · intro l₁ l₂ h
    simp only [riskRank] at h
    simp only [MobileApp.intervalMinutes]
    split_ifs at * <;> omega

/-- Witness for C4: `severe` outranks `high` and polls at least as
tightly. -/
theorem C4_witness :
    riskRank "high" < riskRank "severe" ∧
    MobileApp.intervalMinutes "severe" ≤ MobileApp.intervalMinutes "high" :=
  ⟨by decide, C4_adaptive_polling.2.2 "severe" "high" (by decide)⟩

/-- C9: the registration handler submits the POST body — the unchanged
form state — exactly when the phone number matches `^\+[1-9]\d\x7b1,14\x7d$`,
the trimmed name is nonempty, and an area is selected; on any validation
failure it only sets an error message (and the form state, which the
reject branch never writes, is unchanged). -/
theorem C9_registration_validation (form : AlertPortal.RegistrationData) :
    (AlertPortal.handleRegistration form = AlertPortal.RegOutcome.submit form ↔
      (AlertPortal.phoneRegexTest form.phone_number = true ∧
        AlertPortal.trimString form.name ≠ "" ∧ form.area ≠ "")) ∧
    (∀ b, AlertPortal.handleRegistration form = AlertPortal.RegOutcome.submit b →
      b = form) ∧
    (¬ (AlertPortal.phoneRegexTest form.phone_number = true ∧
        AlertPortal.trimString form.name ≠ "" ∧ form.area ≠ "") →
      ∃ msg, AlertPortal.handleRegistration form =
        AlertPortal.RegOutcome.reject msg) := by
  unfold AlertPortal.handleRegistration
  split_ifs with h1 h2 h3 <;> simp_all

/-- Witness for C9: a concrete valid form is submitted unchanged. -/
theorem C9_witness :
    AlertPortal.handleRegistration
        ⟨"+919876543210", "Asha Rawat", "Clock Tower", 303165 / 10000,
          780322 / 10000⟩ =
      AlertPortal.RegOutcome.submit
        ⟨"+919876543210", "Asha Rawat", "Clock Tower", 303165 / 10000,
          780322 / 10000⟩ :=
  (C9_registration_validation _).1.mpr ⟨by decide, by decide, by decide⟩

/-- C7: `checkRiskAndNotify` decides to raise a local flood alert exactly
when the current risk is at least 0.4, or a (truthy, i.e. nonzero)
previous risk exists and the current risk exceeds it by at least 0.05; and
a decided alert is suppressed only by the cooldown — 30 minutes when the
current risk is at least 0.7 and 60 minutes otherwise. -/
theorem C7_risk_notification (currentRisk previousRisk : ℚ)
    (lastAlertTime : Option ℤ) (now : ℤ) :
    MobileApp.alertRaised currentRisk previousRisk lastAlertTime now = true ↔
      ((currentRisk ≥ 4 / 10 ∨
          (previousRisk ≠ 0 ∧ currentRisk - previousRisk ≥ 5 / 100)) ∧
        ∀ t, lastAlertTime = some t →
          now - t > (if currentRisk ≥ 7 / 10 then 30 else 60) * 60 * 1000) := by
  unfold MobileApp.alertRaised MobileApp.shouldAlert MobileApp.shouldShowAlert
    MobileApp.cooldownTime MobileApp.HIGH_RISK_THRESHOLD
    MobileApp.SEVERE_RISK_THRESHOLD
  cases lastAlertTime with
  | none => split_ifs <;> simp
  | some t => split_ifs <;> simp

/-- Witness for C7: a concrete call at risk 0.5 with no stored alert time
raises the alert. -/
theorem C7_witness :
    MobileApp.alertRaised (1 / 2) 0 none 0 = true :=
  (C7_risk_notification (1 / 2) 0 none 0).mpr
    ⟨Or.inl (by norm_num), by simp⟩

/-- C3: for a reading whose backend risk label is `SEVERE`, the status card
renders the flood-risk figure in the red colour class, and the sample-alert
generator produces exactly one alert, of type `critical`, with
`acknowledged = false`. -/
theorem C3_severe_red_and_critical (d : FloodData) (now : ℤ)
    (h : d.risk_level = some "SEVERE") :
    StatusCards.floodRiskColorClass d = "text-red-600" ∧
    (AlertsPanel.generateSampleAlerts d.floodProbability d.risk_level
        now).length = 1 ∧
    ∀ a ∈ AlertsPanel.generateSampleAlerts d.floodProbability d.risk_level now,
      a.type = AlertsPanel.AlertType.critical ∧ a.acknowledged = false := by
  refine ⟨?_, ?_, ?_⟩
  · unfold StatusCards.floodRiskColorClass
    rw [h]
    rfl
  · unfold AlertsPanel.generateSampleAlerts
    rw [h]
    simp
  · intro a ha
    unfold AlertsPanel.generateSampleAlerts at ha
    rw [h] at ha
    simp at ha
    rw [ha]
    exact ⟨rfl, rfl⟩

/-- Witness for C3 at a concrete SEVERE reading. -/
theorem C3_witness :
    (mkReading (9 / 10) (some "SEVERE")).risk_level = some "SEVERE" ∧
    StatusCards.floodRiskColorClass (mkReading (9 / 10) (some "SEVERE")) =
      "text-red-600" :=
  ⟨rfl, (C3_severe_red_and_critical (mkReading (9 / 10) (some "SEVERE")) 0
    rfl).1⟩

/-- C1, counterexample: the claim that no component recomputes a risk level
from the flood probability using local thresholds is false.  Two backend
readings that are identical except for `floodProbability` (so any
backend-assigned label is unchanged — the mobile conversion never even
reads one) are classified `severe` versus `low` by the mobile app, and the
web flood map assigns its marker colour class directly from the
probability: both recompute the classification locally. -/
theorem C1_counterexample :
    (MobileApp.getFloodStatus
        (MobileApp.FetchOutcome.response true
          [⟨"t", 9 / 10, some 1, some 1, some 25, some 50⟩])
        MobileApp.defaultRecommendations "n").riskLevel = "severe" ∧
    (MobileApp.getFloodStatus
        (MobileApp.FetchOutcome.response true
          [⟨"t", 1 / 10, some 1, some 1, some 25, some 50⟩])
        MobileApp.defaultRecommendations "n").riskLevel = "low" ∧
    FloodMap.getMarkerColor (9 / 10) = "#ef4444" ∧
    FloodMap.getMarkerColor (1 / 10) = "#22c55e" ∧
    ("severe" : String) ≠ "low" := by
  refine ⟨?_, ?_, ?_, ?_, by decide⟩ <;>
    simp [MobileApp.getFloodStatus, MobileApp.computeRiskLevel,
      FloodMap.getMarkerColor] <;> norm_num

/-- C1, amended: the web dashboard status cards and the sample-alert
generator source the risk classification from the backend-provided label —
readings with the same label render the same colour class and the same
alert types, whatever their probabilities — but the web flood map marker
colour and the mobile app risk level are recomputed from the flood
probability using local thresholds (map: red exactly at probability ≥ 0.7;
mobile: `severe` exactly at probability ≥ 0.8) and take different values at
different probabilities. -/
theorem C1_amended :
    (∀ d₁ d₂ : FloodData, d₁.risk_level = d₂.risk_level →
      StatusCards.floodRiskColorClass d₁ = StatusCards.floodRiskColorClass d₂) ∧
    (∀ (p₁ p₂ : ℚ) (rl : Option String) (now : ℤ),
      (AlertsPanel.generateSampleAlerts p₁ rl now).map AlertsPanel.Alert.type =
        (AlertsPanel.generateSampleAlerts p₂ rl now).map
          AlertsPanel.Alert.type) ∧
    (∀ p : ℚ, MobileApp.computeRiskLevel p = "severe" ↔ 8 / 10 ≤ p) ∧
    (∀ p : ℚ, FloodMap.getMarkerColor p = "#ef4444" ↔ 7 / 10 ≤ p) := by
  refine ⟨?_, ?_, ?_, ?_⟩
  · intro d₁ d₂ h
    unfold StatusCards.floodRiskColorClass
    rw [h]
  · intro p₁ p₂ rl now
    unfold AlertsPanel.generateSampleAlerts
    split_ifs <;> simp
  · intro p
    unfold MobileApp.computeRiskLevel
    split_ifs with h1 h2 h3 <;> simp <;> linarith
  · intro p
    unfold FloodMap.getMarkerColor
    split_ifs with h1 h2 h3 <;> simp <;> linarith

/-- Witness for the amended C1: two readings sharing the label `LOW` but
with very different probabilities get the same status-card colour class. -/
theorem C1_witness :
    (mkReading (1 / 10) (some "LOW")).risk_level =
      (mkReading (9 / 10) (some "LOW")).risk_level ∧
    StatusCards.floodRiskColorClass (mkReading (1 / 10) (some "LOW")) =
      StatusCards.floodRiskColorClass (mkReading (9 / 10) (some "LOW")) :=
  ⟨rfl, C1_amended.1 (mkReading (1 / 10) (some "LOW"))
    (mkReading (9 / 10) (some "LOW")) rfl⟩

end FloodUI
